import Mathlib

/-!
# Verification of the pytest-zebrunner reporting core

Shallow embedding of `src/pytest_zebrunner/reporting_service.py` and
`src/pytest_zebrunner/zebrunner_api/client.py` (together with the payload
models of `src/pytest_zebrunner/api/models.py`), followed by theorems that
settle the claims of the specification.

Modelling conventions:
* Remote I/O is made explicit: each client operation is a pure function of
  the outcome of its single HTTP attempt (`HttpOutcome`), and each
  orchestrator operation takes the degraded result of the remote calls it
  may issue (an `Option Nat` server id, a flag for auth success) as an
  oracle parameter, while recording the calls it issues in a trace
  (`List ApiCall`).
* Timestamps are integers; client-generated UUIDs and wall-clock default
  timestamps of the pydantic models are not observed by any claim and are
  omitted from the payload records.
* A propagating Python exception is an explicit error value (`PyError`);
  operations that cannot raise are total functions.
* `pytest_zebrunner/context.py` (the execution context and the settings
  object) is imported by the source under verification but absent from the
  sources provided; its members are modelled from the spec and marked as
  such in their doc comments.
-/

namespace Zebrunner

/-! ## Payload models (api/models.py) -/

/-- `TestStatus` enumeration of `api/models.py`. -/
inductive TestStatus where
  | UNKNOWN
  | IN_PROGRESS
  | PASSED
  | FAILED
  | SKIPPED
  | ABORTED
  | QUEUED
deriving DecidableEq, Repr

/-- `TestStatus.value`: the string carried by each enum member. -/
def TestStatus.value : TestStatus → String
  | .UNKNOWN => "UNKNOWN"
  | .IN_PROGRESS => "IN_PROGRESS"
  | .PASSED => "PASSED"
  | .FAILED => "FAILED"
  | .SKIPPED => "SKIPPED"
  | .ABORTED => "ABORTED"
  | .QUEUED => "QUEUED"

/-- `NotificationsType` enumeration of `api/models.py`. -/
inductive NotificationsType where
  | EMAIL_RECIPIENTS
  | MS_TEAMS_CHANNELS
  | SLACK_CHANNELS
deriving DecidableEq, Repr

/-- `NotificationsType.value`. -/
def NotificationsType.value : NotificationsType → String
  | .EMAIL_RECIPIENTS => "EMAIL_RECIPIENTS"
  | .MS_TEAMS_CHANNELS => "MS_TEAMS_CHANNELS"
  | .SLACK_CHANNELS => "SLACK_CHANNELS"

/-- `NotificationTargetModel`: a (type, value) pair. -/
structure NotificationTargetModel where
  type : String
  value : String
deriving DecidableEq, Repr

/-- `MilestoneModel`. -/
structure MilestoneModel where
  id : Option Nat
  name : Option String
deriving DecidableEq, Repr

/-- `TestRunConfigModel`. -/
structure TestRunConfigModel where
  environment : Option String
  build : Option String
deriving DecidableEq, Repr

/-- `CiContextModel`: opaque CI-context blob, produced by the external
`resolve_ci_context` collaborator. -/
structure CiContextModel where
  ci_type : String
  env_variables : List (String × String)
deriving DecidableEq, Repr

/-- `StartTestRunModel` (uuid and started-at defaults omitted: client-side
randomness/clock, observed by no claim). -/
structure StartTestRunModel where
  name : String
  framework : String
  config : Option TestRunConfigModel
  milestone : Option MilestoneModel
  ci_context : Option CiContextModel
  notification_targets : Option (List NotificationTargetModel)
deriving DecidableEq, Repr

/-- `LabelModel`. -/
structure LabelModel where
  key : String
  value : String
deriving DecidableEq, Repr

/-- `CorrelationDataModel`. -/
structure CorrelationDataModel where
  name : String
deriving DecidableEq, Repr

/-- `CorrelationDataModel(...).json()`: the pydantic JSON serialization used
as the correlation payload of a start-test call. -/
def CorrelationDataModel.json (m : CorrelationDataModel) : String :=
  "\x7b\"name\": \"" ++ m.name ++ "\"\x7d"

/-- `StartTestModel` (uuid/started-at defaults omitted as above;
`test_case` is never populated by the code under verification). -/
structure StartTestModel where
  name : String
  class_name : String
  method_name : String
  correlation_data : Option String
  maintainer : Option String
  labels : Option (List LabelModel)
deriving DecidableEq, Repr

/-- `FinishTestModel` (ended-at default omitted as above). -/
structure FinishTestModel where
  result : String
  reason : Option String
deriving DecidableEq, Repr

/-- `StartTestSessionModel` (started-at default omitted as above). -/
structure StartTestSessionModel where
  session_id : String
  desired_capabilities : List (String × String)
  capabilities : List (String × String)
  test_ids : List String
deriving DecidableEq, Repr

/-- `FinishTestSessionModel` (ended-at default omitted as above). -/
structure FinishTestSessionModel where
  test_ids : List String
deriving DecidableEq, Repr

/-- `TestModel`: one test entry of a rerun descriptor. -/
structure TestModel where
  name : String
  correlation_data : Option CorrelationDataModel
  status : String
deriving DecidableEq, Repr

/-- `RerunDataModel`: the rerun descriptor fetched for a rerun-context
token. -/
structure RerunDataModel where
  id : String
  run_exists : Bool
  rerun_only_failed_tests : Bool
  tests : List TestModel
deriving DecidableEq, Repr

/-! ## Transport/Auth Client (zebrunner_api/client.py)

Each remote operation performs at most one HTTP attempt.  The attempt's
outcome — either a transport-level failure (`httpx.RequestError`: connection
refused, timeout, DNS or TLS failure) or a response with a status code —
is the `HttpOutcome` parameter; the embedding of the operation maps it to
what the Python method does with it: the value returned to the caller, any
exception propagated to the caller, and the levels of the log records the
method emits. -/

/-- Outcome of one HTTP attempt: a transport-level error carrying its
detail, or a response with a status code and a (parsed) body. -/
inductive HttpOutcome (α : Type) where
  | transportError (detail : String)
  | response (status : Nat) (body : α)
deriving DecidableEq, Repr

/-- Log level of a record emitted by a client operation. -/
inductive LogLevel where
  | debug
  | warning
  | error
deriving DecidableEq, Repr

/-- What a client operation does as observed by its caller: the exception
it propagates if any, the value it returns, and the log records it emits. -/
structure ClientCallResult (α : Type) where
  raised : Option String
  value : α
  logs : List LogLevel
deriving DecidableEq, Repr

/-- `ZebrunnerAPI.start_test_run` as a function of its HTTP attempt:
`except httpx.RequestError` → WARNING + `None`; non-200 → ERROR + `None`;
200 → the response's `id`. -/
def startTestRunNet (o : HttpOutcome Nat) : ClientCallResult (Option Nat) :=
  match o with
  | .transportError _ => ⟨none, none, [.warning]⟩
  | .response status id =>
      if status ≠ 200 then ⟨none, none, [.error]⟩ else ⟨none, some id, []⟩

/-- `ZebrunnerAPI.start_test` as a function of its HTTP attempt (same
contract as `start_test_run`). -/
def startTestNet (o : HttpOutcome Nat) : ClientCallResult (Option Nat) :=
  match o with
  | .transportError _ => ⟨none, none, [.warning]⟩
  | .response status id =>
      if status ≠ 200 then ⟨none, none, [.error]⟩ else ⟨none, some id, []⟩

/-- `ZebrunnerAPI.finish_test` as a function of its HTTP attempt: void
operation, transport error caught at WARNING, non-200 logged at ERROR. -/
def finishTestNet (o : HttpOutcome Unit) : ClientCallResult Unit :=
  match o with
  | .transportError _ => ⟨none, (), [.warning]⟩
  | .response status _ =>
      if status ≠ 200 then ⟨none, (), [.error]⟩ else ⟨none, (), []⟩

/-- `ZebrunnerAPI.finish_test_run` as a function of its HTTP attempt (same
contract as `finish_test`). -/
def finishTestRunNet (o : HttpOutcome Unit) : ClientCallResult Unit :=
  match o with
  | .transportError _ => ⟨none, (), [.warning]⟩
  | .response status _ =>
      if status ≠ 200 then ⟨none, (), [.error]⟩ else ⟨none, (), []⟩

/-- `ZebrunnerAPI.send_logs`: issues the POST with no `try`/`except` and no
status-code check — a transport-level error propagates to the caller. -/
def sendLogsNet (o : HttpOutcome Unit) : ClientCallResult Unit :=
  match o with
  | .transportError detail => ⟨some detail, (), []⟩
  | .response _ _ => ⟨none, (), []⟩

/-- `ZebrunnerAPI.send_screenshot`: issues the POST with no `try`/`except`
and no status-code check — a transport-level error propagates to the
caller. -/
def sendScreenshotNet (o : HttpOutcome Unit) : ClientCallResult Unit :=
  match o with
  | .transportError detail => ⟨some detail, (), []⟩
  | .response _ _ => ⟨none, (), []⟩

/-- `ZebrunnerAPI.start_test_session`: a stub — issues no HTTP request at
all and returns `None`. -/
def startTestSessionNet : ClientCallResult (Option String) :=
  ⟨none, none, []⟩

/-- `ZebrunnerAPI.finish_test_session`: a stub — issues no HTTP request at
all and returns. -/
def finishTestSessionNet : ClientCallResult Unit :=
  ⟨none, (), []⟩

/-- `ZebrunnerAPI.auth` as a function of its HTTP attempt: transport error
caught at WARNING, non-200 logged at ERROR; on 200 the credential is
installed.  The returned value is `true` iff the client became
authenticated. -/
def authNet (o : HttpOutcome String) : ClientCallResult Bool :=
  match o with
  | .transportError _ => ⟨none, false, [.warning]⟩
  | .response status _ =>
      if status ≠ 200 then ⟨none, false, [.error]⟩ else ⟨none, true, []⟩

/-! ## Execution context and settings

`pytest_zebrunner/context.py` is imported by `reporting_service.py` but is
not among the sources provided; its data is modelled from the spec. -/

/-- Modelled from the spec: the `TestRun` value of the missing
`pytest_zebrunner/context.py` — name, environment label, build label and a
server-assigned numeric identifier, absent until the start call succeeds.
(The client-generated correlation UUID is unobserved randomness and
omitted.) -/
structure TestRun where
  name : String
  environment : Option String
  build : Option String
  zebrunner_id : Option Nat
deriving DecidableEq, Repr

/-- Modelled from the spec: the `Test` value of the missing
`pytest_zebrunner/context.py` — display name, source file identifier,
method name, maintainers, labels and a server-assigned identifier, absent
if the Run was inactive at start time or the start call failed. -/
structure Test where
  name : String
  file : String
  maintainers : List String
  labels : List (String × String)
  zebrunner_id : Option Nat
deriving DecidableEq, Repr

/-- Modelled from the spec: the mutable state of the process-wide
`zebrunner_context` singleton of the missing `pytest_zebrunner/context.py`:
the current Run (or absent) and the current Test (or absent). -/
structure Context where
  test_run : Option TestRun
  test : Option Test
deriving DecidableEq, Repr

/-- Modelled from the spec: `zebrunner_context.test_run_is_active` — the
Run is active iff it exists and carries a server-assigned identifier. -/
def Context.test_run_is_active (ctx : Context) : Bool :=
  match ctx.test_run with
  | some r => r.zebrunner_id.isSome
  | none => false

/-- Modelled from the spec: `zebrunner_context.test_is_active` — the Test
is active iff the Run is active and the Test exists and carries a
server-assigned identifier. -/
def Context.test_is_active (ctx : Context) : Bool :=
  ctx.test_run_is_active &&
    (match ctx.test with
     | some t => t.zebrunner_id.isSome
     | none => false)

/-- Modelled from the spec: `zebrunner_context.test_run_id` — the server
identifier of the current Run; read only while the Run is active
(defaulting to 0 outside that domain). -/
def Context.test_run_id (ctx : Context) : Nat :=
  ((ctx.test_run.bind TestRun.zebrunner_id).getD 0)

/-- Modelled from the spec: `zebrunner_context.test_id` — the server
identifier of the current Test; read only while the Test is active
(defaulting to 0 outside that domain). -/
def Context.test_id (ctx : Context) : Nat :=
  ((ctx.test.bind Test.zebrunner_id).getD 0)

/-- Modelled from the spec: the `run` section of the settings object of the
missing `pytest_zebrunner/context.py` — display name, environment, build
and the rerun-context token. -/
structure RunSettings where
  display_name : String
  environment : Option String
  build : Option String
  context : Option String
deriving DecidableEq, Repr

/-- Modelled from the spec: the `milestone` section of the settings
object. -/
structure MilestoneSettings where
  id : Option Nat
  name : Option String
deriving DecidableEq, Repr

/-- Modelled from the spec: the `notifications` section of the settings
object — one destination value per channel type; a channel is configured
iff its value is non-empty. -/
structure NotificationsSettings where
  emails : String
  slack_channels : String
  ms_teams_channels : String
deriving DecidableEq, Repr

/-- Modelled from the spec: the settings object of the missing
`pytest_zebrunner/context.py` (server hostname/token are consumed only by
the client constructor and omitted). -/
structure Settings where
  project_key : String
  run : RunSettings
  milestone : Option MilestoneSettings
  notifications : Option NotificationsSettings
  send_logs : Bool
deriving DecidableEq, Repr

/-! ## Test-framework inputs (pytest `Item` / `TestReport`) -/

/-- A pytest marker as read by the code under verification: its name, its
positional arguments, and the two keyword arguments the code looks up
(`kwargs.get("reason")`, `kwargs.get("strict", False)`). -/
structure Marker where
  name : String
  args : List String
  kwargs_reason : Option String
  kwargs_strict : Option Bool
deriving DecidableEq, Repr

/-- A pytest `Item` as read by the code under verification: name, node id,
the markers yielded by `iter_markers` (in order), and `own_markers`. -/
structure Item where
  name : String
  nodeid : String
  markers : List Marker
  own_markers : List Marker
deriving DecidableEq, Repr

/-- `item.iter_markers(name)`: the markers of the given name, in `markers`
order. -/
def Item.iter_markers (item : Item) (name : String) : List Marker :=
  item.markers.filter (fun m => m.name == name)

/-- Splits a character list at each non-overlapping, leftmost-first
occurrence of `::` — the semantics of Python's `str.split("::")` on the
character level. -/
def splitColonsAux : List Char → List Char → List (List Char)
  | acc, [] => [acc.reverse]
  | acc, ':' :: ':' :: rest => acc.reverse :: splitColonsAux [] rest
  | acc, c :: rest => splitColonsAux (c :: acc) rest

/-- `s.split("::")` of Python, on the node ids the source indexes into.
(Defined by structural recursion over the character list so that concrete
instances reduce.) -/
def splitDoubleColon (s : String) : List String :=
  (splitColonsAux [] s.data).map String.mk

/-- A pytest `TestReport` as read by the code under verification. -/
structure TestReport where
  passed : Bool
  skipped : Bool
  longreprtext : String
deriving DecidableEq, Repr

/-! ## Reporting Orchestrator (reporting_service.py)

Each operation of `ReportingService` is embedded as a pure function of the
service state, its pytest inputs, and an oracle for the degraded results of
the remote calls it may issue (`authOk` — whether an issued auth call
succeeds; an `Option Nat` server id for start calls).  Alongside the new
state it returns the trace of client calls it issued. -/

/-- A Python exception propagating out of an orchestrator operation,
distinguished by its raise site. -/
inductive PyError where
  | indexErrorNodeid
  | indexErrorMarkerArgs
deriving DecidableEq, Repr

/-- One client call issued by the orchestrator.  `auth`, `startTestRun`,
`startTest`, `finishTest` and `finishTestRun` each perform one HTTP
request; `pushLogs` is the flush of the registered log sink; the two
session constructors record the invocation of the client's session stubs
(which perform no HTTP request); `close` releases the client's connection
pool. -/
inductive ApiCall where
  | auth
  | startTestRun (projectKey : String) (body : StartTestRunModel)
  | startTest (testRunId : Nat) (body : StartTestModel)
  | finishTest (testRunId : Nat) (testId : Nat) (body : FinishTestModel)
  | finishTestRun (testRunId : Nat) (endedAt : Int)
  | pushLogs
  | startSessionInvoke (testRunId : Nat) (body : StartTestSessionModel)
  | finishSessionInvoke (testRunId : Nat) (sessionId : String)
      (body : FinishTestSessionModel)
  | close
deriving DecidableEq, Repr

/-- The mutable state threaded through the orchestrator: the execution
context, the client's `authenticated` flag, and whether a Zebrunner log
handler has been registered on the root logger. -/
structure ServiceState where
  ctx : Context
  authenticated : Bool
  log_handler_registered : Bool
deriving DecidableEq, Repr

/-- The state at process start: no Run, no Test, unauthenticated client,
no log handler. -/
def initialState : ServiceState :=
  ⟨⟨none, none⟩, false, false⟩

/-- Result of an orchestrator operation that can raise: the exception if
one propagated, and the state and call trace at return (resp. raise)
time. -/
structure StepResult where
  error : Option PyError
  state : ServiceState
  calls : List ApiCall
deriving DecidableEq, Repr

/-- `ReportingService.authorize`: issues one auth call iff the client is
not yet authenticated; `authOk` tells whether that call obtained a
credential.  (The settings always carry a hostname and token — the client
constructor requires both — so an issued `auth()` always attempts its HTTP
request.) -/
def authorize (st : ServiceState) (authOk : Bool) : ServiceState × List ApiCall :=
  if st.authenticated then (st, [])
  else ({ st with authenticated := authOk }, [ApiCall.auth])

/-- `ReportingService.get_notification_configurations`: `None` when no
notifications block is configured; otherwise one target per channel whose
destination value is truthy (non-empty), appended in source order. -/
def get_notification_configurations (notifications : Option NotificationsSettings) :
    Option (List NotificationTargetModel) :=
  match notifications with
  | some n =>
      some (((if n.emails ≠ "" then
                [NotificationTargetModel.mk NotificationsType.EMAIL_RECIPIENTS.value n.emails]
              else []) ++
             (if n.slack_channels ≠ "" then
                [NotificationTargetModel.mk NotificationsType.SLACK_CHANNELS.value n.slack_channels]
              else [])) ++
            (if n.ms_teams_channels ≠ "" then
               [NotificationTargetModel.mk NotificationsType.MS_TEAMS_CHANNELS.value n.ms_teams_channels]
             else []))
  | none => none

/-- `ReportingService.start_test_run`: authorize, build the Run and its
start payload (the CI context blob is the external resolver's value `ci`),
store the Run — carrying the server id `runId` the remote call produced
(`none` on failure) — and register a log handler when configured to send
logs. -/
def start_test_run (st : ServiceState) (settings : Settings)
    (ci : Option CiContextModel) (authOk : Bool) (runId : Option Nat) :
    ServiceState × List ApiCall :=
  let a := authorize st authOk
  let test_run : TestRun :=
    ⟨settings.run.display_name, settings.run.environment, settings.run.build, none⟩
  let milestone : Option MilestoneModel :=
    settings.milestone.map (fun m => MilestoneModel.mk m.id m.name)
  let body : StartTestRunModel :=
    ⟨test_run.name, "pytest",
     some ⟨test_run.environment, test_run.build⟩,
     milestone, ci, get_notification_configurations settings.notifications⟩
  let st2 : ServiceState :=
    { a.1 with
      ctx := { a.1.ctx with test_run := some { test_run with zebrunner_id := runId } }
      log_handler_registered := a.1.log_handler_registered || settings.send_logs }
  (st2, a.2 ++ [ApiCall.startTestRun settings.project_key body])

/-- `mark.args[0]` over the maintainer markers; raises `IndexError` when a
marker has no positional argument.  (`args` entries are already strings in
the model, so the source's `str(...)` coercion is the identity.) -/
def maintainerArgs : List Marker → Except PyError (List String)
  | [] => Except.ok []
  | m :: ms =>
    match m.args with
    | [] => Except.error PyError.indexErrorMarkerArgs
    | a :: _ =>
        match maintainerArgs ms with
        | Except.error e => Except.error e
        | Except.ok rest => Except.ok (a :: rest)

/-- `(str(mark.args[0]), str(mark.args[1]))` over the label markers; raises
`IndexError` when a marker has fewer than two positional arguments. -/
def labelArgs : List Marker → Except PyError (List (String × String))
  | [] => Except.ok []
  | m :: ms =>
    match m.args with
    | a :: b :: _ =>
        match labelArgs ms with
        | Except.error e => Except.error e
        | Except.ok rest => Except.ok ((a, b) :: rest)
    | _ => Except.error PyError.indexErrorMarkerArgs

/-- The `StartTestModel` built by `ReportingService.start_test`. -/
def startTestBody (test : Test) : StartTestModel :=
  ⟨test.name, test.file, test.name,
   some (CorrelationDataModel.mk test.name).json,
   some (String.intercalate "," test.maintainers),
   some (test.labels.map (fun l => LabelModel.mk l.1 l.2))⟩

/-- `ReportingService.start_test`: authorize; build the `Test` (the second
`::`-segment of the node id is its file — an `IndexError` propagates, before
the context is touched, when the node id has no `::`); store it as the
current Test; when the Run is active issue the remote start-test call and
store the returned id; finally, when the report says skipped and the Test
is active, issue a finish-test call with status skipped and the first skip
marker's reason, and clear the current Test. -/
def start_test (st : ServiceState) (report : TestReport) (item : Item)
    (authOk : Bool) (testId : Option Nat) : StepResult :=
  let a := authorize st authOk
  match (splitDoubleColon item.nodeid).get? 1 with
  | none => ⟨some PyError.indexErrorNodeid, a.1, a.2⟩
  | some file =>
    match maintainerArgs (item.iter_markers "maintainer") with
    | Except.error e => ⟨some e, a.1, a.2⟩
    | Except.ok maintainers =>
      match labelArgs (item.iter_markers "label") with
      | Except.error e => ⟨some e, a.1, a.2⟩
      | Except.ok labels =>
        let test0 : Test := ⟨item.name, file, maintainers, labels, none⟩
        let test1 : Test :=
          if a.1.ctx.test_run_is_active then { test0 with zebrunner_id := testId }
          else test0
        let st2 : ServiceState := { a.1 with ctx := { a.1.ctx with test := some test1 } }
        let c2 : List ApiCall :=
          if a.1.ctx.test_run_is_active then
            a.2 ++ [ApiCall.startTest a.1.ctx.test_run_id (startTestBody test1)]
          else a.2
        if report.skipped && st2.ctx.test_is_active then
          let skip_markers := item.own_markers.filter (fun m => m.name == "skip")
          let skip_reason := skip_markers.head?.bind Marker.kwargs_reason
          ⟨none,
           { st2 with ctx := { st2.ctx with test := none } },
           c2 ++ [ApiCall.finishTest st2.ctx.test_run_id st2.ctx.test_id
                    ⟨TestStatus.SKIPPED.value, skip_reason⟩]⟩
        else ⟨none, st2, c2⟩

/-- `ReportingService.finish_test`: a no-op unless the Test is active;
otherwise authorize, resolve the canonical status and reason from the raw
outcome and the first xfail marker, issue the finish-test call, and clear
the current Test. -/
def finish_test (st : ServiceState) (report : TestReport) (item : Item)
    (authOk : Bool) : ServiceState × List ApiCall :=
  if st.ctx.test_is_active then
    let a := authorize st authOk
    let xfail_markers := item.iter_markers "xfail"
    let fail_reason0 : Option String :=
      match xfail_markers.head? with
      | some m => m.kwargs_reason
      | none => none
    let is_strict : Bool :=
      match xfail_markers.head? with
      | some m => m.kwargs_strict.getD false
      | none => false
    let resolved : TestStatus × Option String :=
      if report.passed then
        if !xfail_markers.isEmpty then
          if is_strict then (TestStatus.FAILED, some report.longreprtext)
          else (TestStatus.SKIPPED, fail_reason0)
        else (TestStatus.PASSED, fail_reason0)
      else
        if !xfail_markers.isEmpty then
          (TestStatus.SKIPPED, xfail_markers.head?.bind Marker.kwargs_reason)
        else (TestStatus.FAILED, some report.longreprtext)
    ({ a.1 with ctx := { a.1.ctx with test := none } },
     a.2 ++ [ApiCall.finishTest a.1.ctx.test_run_id a.1.ctx.test_id
               ⟨resolved.1.value, resolved.2⟩])
  else (st, [])

/-- `ReportingService.finish_test_run`: authorize; when the Run is active,
issue the remote finish-run call — whose payload timestamp the client
computes as the current time minus one second — and flush the registered
log sink if one exists; in every case, close the client afterwards. -/
def finish_test_run (st : ServiceState) (authOk : Bool) (now : Int) :
    ServiceState × List ApiCall :=
  let a := authorize st authOk
  if a.1.ctx.test_run_is_active then
    (a.1,
     ((a.2 ++ [ApiCall.finishTestRun a.1.ctx.test_run_id (now - 1)]) ++
      (if a.1.log_handler_registered then [ApiCall.pushLogs] else [])) ++
     [ApiCall.close])
  else (a.1, a.2 ++ [ApiCall.close])

/-- `ReportingService.start_test_session`: authorize; when the Run is
active, invoke the client's (stub) session-start operation and return its
value; otherwise return `None`. -/
def start_test_session (st : ServiceState) (authOk : Bool) (session_id : String)
    (capabilities desired_capabilities : List (String × String)) :
    ServiceState × List ApiCall × Option String :=
  let a := authorize st authOk
  if a.1.ctx.test_run_is_active then
    (a.1,
     a.2 ++ [ApiCall.startSessionInvoke a.1.ctx.test_run_id
               ⟨session_id, desired_capabilities, capabilities, []⟩],
     startTestSessionNet.value)
  else (a.1, a.2, none)

/-- `ReportingService.finish_test_session`: authorize; when the Run is
active, invoke the client's (stub) session-finish operation with the
related test ids. -/
def finish_test_session (st : ServiceState) (authOk : Bool)
    (zebrunner_session_id : String) (related_tests : List String) :
    ServiceState × List ApiCall :=
  let a := authorize st authOk
  if a.1.ctx.test_run_is_active then
    (a.1,
     a.2 ++ [ApiCall.finishSessionInvoke a.1.ctx.test_run_id zebrunner_session_id
               ⟨related_tests⟩])
  else (a.1, a.2)

/-- `ReportingService.filter_test_items`: with no rerun-context token the
items pass through unchanged; with a token, `context_data` is the rerun
descriptor the client fetched for it (`get_rerun_tests`, whose client
source is not provided, is the identity oracle here) and only items whose
name is among the correlation-data names of the descriptor's tests are
kept, in input order. -/
def filter_test_items (run_context : Option String) (context_data : RerunDataModel)
    (items : List Item) : List Item :=
  match run_context with
  | some _ =>
      let rerun_names :=
        context_data.tests.filterMap (fun x => x.correlation_data.map CorrelationDataModel.name)
      items.filter (fun x => rerun_names.contains x.name)
  | none => items

/-! ## Observation helpers and concrete fixtures -/

/-- The payloads of the finish-test calls of a trace, in order. -/
def finishPayloads (calls : List ApiCall) : List FinishTestModel :=
  calls.filterMap (fun c =>
    match c with
    | .finishTest _ _ body => some body
    | _ => none)

/-- Whether a call is a test-lifecycle transport call (remote start-test or
finish-test). -/
def isTestLifecycle : ApiCall → Bool
  | .startTest _ _ => true
  | .finishTest _ _ _ => true
  | _ => false

/-- The (run id, payload timestamp) pairs of the finish-run calls of a
trace. -/
def finishRunCalls (calls : List ApiCall) : List (Nat × Int) :=
  calls.filterMap (fun c =>
    match c with
    | .finishTestRun rid t => some (rid, t)
    | _ => none)

/-- The number of log-sink flushes in a trace. -/
def countPushLogs (calls : List ApiCall) : Nat :=
  (calls.filterMap (fun c =>
    match c with
    | .pushLogs => some Unit.unit
    | _ => none)).length

/-- The session-operation invocations of a trace. -/
def sessionInvokes (calls : List ApiCall) : List ApiCall :=
  calls.filter (fun c =>
    match c with
    | .startSessionInvoke _ _ => true
    | .finishSessionInvoke _ _ _ => true
    | _ => false)

/-- An item on which `start_test` completes without raising: the node id
has a second `::`-segment and every maintainer/label marker carries the
positional arguments the code indexes. -/
def itemWellFormed (item : Item) : Bool :=
  (2 ≤ (splitDoubleColon item.nodeid).length &&
   (item.iter_markers "maintainer").all (fun m => !m.args.isEmpty)) &&
  (item.iter_markers "label").all (fun m => 2 ≤ m.args.length)

/-- The number of notification channels whose destination value is
non-empty. -/
def numConfiguredChannels (ns : NotificationsSettings) : Nat :=
  (if ns.emails ≠ "" then 1 else 0) +
  (if ns.slack_channels ≠ "" then 1 else 0) +
  (if ns.ms_teams_channels ≠ "" then 1 else 0)

/-- The notification-target list induced by the configuration: the computed
targets, or no targets when no notifications block is configured (the
source returns `None` there, which the payload serialization drops). -/
def targetsOf (n : Option NotificationsSettings) : List NotificationTargetModel :=
  (get_notification_configurations n).getD []

/-- One start-test/finish-test round for one test item, with the oracle
values of its remote calls. -/
structure StepPair where
  reportS : TestReport
  reportF : TestReport
  item : Item
  authOkS : Bool
  authOkF : Bool
  testId : Option Nat
deriving DecidableEq, Repr

/-- Run one `start_test` (propagating its exception, if any) followed by
one `finish_test`. -/
def stepPair (st : ServiceState) (p : StepPair) : Option ServiceState :=
  let r := start_test st p.reportS p.item p.authOkS p.testId
  match r.error with
  | some _ => none
  | none => some (finish_test r.state p.reportF p.item p.authOkF).1

/-- Run a list of rounds, collecting the state immediately after each
`finish_test` call; `none` if a `start_test` raised. -/
def runPairs (st : ServiceState) : List StepPair → Option (List ServiceState)
  | [] => some []
  | p :: ps =>
    match stepPair st p with
    | none => none
    | some st1 => (runPairs st1 ps).map (fun l => st1 :: l)

/-- One test-lifecycle event with the oracle values of its remote calls. -/
inductive TestEvent where
  | start (report : TestReport) (item : Item) (authOk : Bool) (testId : Option Nat)
  | finish (report : TestReport) (item : Item) (authOk : Bool)
deriving Repr

/-- Run a list of test-lifecycle events, accumulating the full call trace;
a `start_test` exception aborts the remainder of the sequence. -/
def runEvents (st : ServiceState) : List TestEvent → ServiceState × List ApiCall
  | [] => (st, [])
  | ev :: evs =>
    match ev with
    | .start r i a t =>
        let res := start_test st r i a t
        match res.error with
        | some _ => (res.state, res.calls)
        | none =>
            let rest := runEvents res.state evs
            (rest.1, res.calls ++ rest.2)
    | .finish r i a =>
        let res := finish_test st r i a
        let rest := runEvents res.1 evs
        (rest.1, res.2 ++ rest.2)

/-- The status/reason resolution table for an active test, as a function of
the raw outcome, the first xfail marker, and the captured failure text. -/
def resolutionTable (passed : Bool) (xfail : Option Marker) (longreprtext : String) :
    String × Option String :=
  match xfail with
  | none =>
      if passed then ("PASSED", none) else ("FAILED", some longreprtext)
  | some m =>
      if passed then
        if m.kwargs_strict.getD false then ("FAILED", some longreprtext)
        else ("SKIPPED", m.kwargs_reason)
      else ("SKIPPED", m.kwargs_reason)

/-- A minimal settings fixture. -/
def sampleSettings : Settings :=
  ⟨"PROJ", ⟨"run", none, none, none⟩, none, none, false⟩

/-- An item with no markers and a well-formed node id. -/
def plainItem : Item :=
  ⟨"test_a", "tests/test_mod.py::test_a", [], []⟩

/-- An item carrying a non-strict xfail marker with a reason. -/
def xfailItem : Item :=
  ⟨"test_a", "tests/test_mod.py::test_a",
   [⟨"xfail", [], some "flaky", some false⟩],
   [⟨"xfail", [], some "flaky", some false⟩]⟩

/-- An item carrying a skip marker with `reason="env"`. -/
def skipItem : Item :=
  ⟨"test_a", "tests/test_mod.py::test_a",
   [⟨"skip", [], some "env", none⟩],
   [⟨"skip", [], some "env", none⟩]⟩

/-- A state with an active Run (server id 1) and an active current Test
(server id 7), authenticated. -/
def activeState : ServiceState :=
  ⟨⟨some ⟨"run", none, none, some 1⟩, some ⟨"test_a", "test_mod.py", [], [], some 7⟩⟩,
   true, false⟩

/-- A state with an active Run (server id 1), no current Test,
authenticated. -/
def activeRunState : ServiceState :=
  ⟨⟨some ⟨"run", none, none, some 1⟩, none⟩, true, false⟩

/-- A state whose Run never received a server id (start-run failed),
authenticated. -/
def inactiveRunState : ServiceState :=
  ⟨⟨some ⟨"run", none, none, none⟩, none⟩, true, false⟩

/-! ## Theorems -/

/-- The calls issued by `authorize` contain no test-lifecycle call. -/
theorem authorize_no_lifecycle (st : ServiceState) (b : Bool) :
    (authorize st b).2.filter isTestLifecycle = [] := by
  unfold authorize
  split <;> rfl

/-- The calls issued by `authorize` contain no finish-test payload. -/
theorem finishPayloads_authorize (st : ServiceState) (b : Bool) :
    finishPayloads (authorize st b).2 = [] := by
  unfold authorize
  split <;> rfl

/-- `authorize` leaves the execution context untouched. -/
theorem authorize_ctx (st : ServiceState) (b : Bool) :
    (authorize st b).1.ctx = st.ctx := by
  unfold authorize
  split <;> rfl

/-- `authorize` leaves the log-handler flag untouched. -/
theorem authorize_log (st : ServiceState) (b : Bool) :
    (authorize st b).1.log_handler_registered = st.log_handler_registered := by
  unfold authorize
  split <;> rfl

/-- C4 (amended): the four test/run lifecycle operations of the client
catch a transport-level failure, log it at WARNING and return an
empty/absent result; the session operations issue no request and never
raise; but `send_logs` and `send_screenshot` catch nothing — a
transport-level failure propagates to the caller, unlogged. -/
theorem client_transport_error_contract (d : String) :
    startTestRunNet (HttpOutcome.transportError d) = ⟨none, none, [LogLevel.warning]⟩ ∧
    startTestNet (HttpOutcome.transportError d) = ⟨none, none, [LogLevel.warning]⟩ ∧
    finishTestNet (HttpOutcome.transportError d) = ⟨none, (), [LogLevel.warning]⟩ ∧
    finishTestRunNet (HttpOutcome.transportError d) = ⟨none, (), [LogLevel.warning]⟩ ∧
    startTestSessionNet.raised = none ∧
    finishTestSessionNet.raised = none ∧
    sendLogsNet (HttpOutcome.transportError d) = ⟨some d, (), []⟩ ∧
    sendScreenshotNet (HttpOutcome.transportError d) = ⟨some d, (), []⟩ :=
  ⟨rfl, rfl, rfl, rfl, rfl, rfl, rfl, rfl⟩

/-- C4 counterexample: a connection failure inside `send_logs` propagates
to the caller instead of being caught, and nothing is logged. -/
theorem send_logs_transport_error_raises :
    (sendLogsNet (HttpOutcome.transportError "connection refused")).raised ≠ none ∧
    (sendLogsNet (HttpOutcome.transportError "connection refused")).logs = [] := by
  decide

/-- C6: the notification-target list is empty when no notifications block
is configured; otherwise it holds one target per channel with a non-empty
destination, in the fixed order email-recipients, slack-channels,
ms-teams-channels, each carrying that channel's destination value. -/
theorem notification_targets_shape (ns : NotificationsSettings) :
    targetsOf none = [] ∧
    (targetsOf (some ns)).length = numConfiguredChannels ns ∧
    (targetsOf (some ns)).map NotificationTargetModel.type =
      ((if ns.emails ≠ "" then ["EMAIL_RECIPIENTS"] else []) ++
       (if ns.slack_channels ≠ "" then ["SLACK_CHANNELS"] else [])) ++
      (if ns.ms_teams_channels ≠ "" then ["MS_TEAMS_CHANNELS"] else []) ∧
    (targetsOf (some ns)).map NotificationTargetModel.value =
      ((if ns.emails ≠ "" then [ns.emails] else []) ++
       (if ns.slack_channels ≠ "" then [ns.slack_channels] else [])) ++
      (if ns.ms_teams_channels ≠ "" then [ns.ms_teams_channels] else []) := by
  refine ⟨rfl, ?_, ?_, ?_⟩ <;>
    · by_cases h1 : ns.emails = "" <;> by_cases h2 : ns.slack_channels = "" <;>
        by_cases h3 : ns.ms_teams_channels = "" <;>
          simp [targetsOf, get_notification_configurations, numConfiguredChannels,
            NotificationsType.value, h1, h2, h3]

/-- Membership of a name in the rerun-name set built from a descriptor's
test entries. -/
theorem contains_rerun_names (tests : List TestModel) (s : String) :
    (tests.filterMap (fun x => x.correlation_data.map CorrelationDataModel.name)).contains s =
      tests.any (fun t =>
        match t.correlation_data with
        | some c => s == c.name
        | none => false) := by
  induction tests with
  | nil => rfl
  | cons t ts ih =>
      cases hc : t.correlation_data with
      | none =>
          simp only [List.filterMap_cons, hc, Option.map_none', List.any_cons, Bool.false_or]
          exact ih
      | some c =>
          simp only [List.filterMap_cons, hc, Option.map_some', List.any_cons,
            List.contains_cons, ih]

/-- C7: with no rerun-context token, `filter_test_items` is the identity
on the item list; with a token, it keeps exactly the input items (in input
order) whose name equals the correlation-data name of some descriptor test
entry carrying correlation data; on the descriptor with the single test
`test_a` and the items `test_a`, `test_b`, the result is `test_a` alone. -/
theorem filter_items_rerun (context_data : RerunDataModel) (items : List Item)
    (token : String) :
    filter_test_items none context_data items = items ∧
    filter_test_items (some token) context_data items =
      items.filter (fun it =>
        context_data.tests.any (fun t =>
          match t.correlation_data with
          | some c => it.name == c.name
          | none => false)) ∧
    filter_test_items (some "tok")
        ⟨"id", true, false, [⟨"test_a", some ⟨"test_a"⟩, "FAILED"⟩]⟩
        [⟨"test_a", "m::test_a", [], []⟩, ⟨"test_b", "m::test_b", [], []⟩] =
      [⟨"test_a", "m::test_a", [], []⟩] := by
  refine ⟨rfl, ?_, by decide⟩
  unfold filter_test_items
  simp only [contains_rerun_names]

/-- The trace issued by `authorize` is empty or a single auth call. -/
theorem authorize_calls_cases (st : ServiceState) (b : Bool) :
    (authorize st b).2 = [] ∨ (authorize st b).2 = [ApiCall.auth] := by
  unfold authorize
  split
  · exact Or.inl rfl
  · exact Or.inr rfl

/-- C1 (amended): for every `finish_test` call on an active Test, the
finish-test payload carries exactly the status and reason of the
resolution table — passed without xfail: passed, no reason; passed with
non-strict xfail: skipped with the marker's reason (absent when the marker
has none); passed with strict xfail: failed with the full failure text;
failed without xfail: failed with the full failure text; failed with
xfail: skipped with the marker's reason. -/
theorem finish_test_resolution (st : ServiceState) (report : TestReport)
    (item : Item) (authOk : Bool) (h : st.ctx.test_is_active = true) :
    finishPayloads (finish_test st report item authOk).2 =
      [⟨(resolutionTable report.passed (item.iter_markers "xfail").head? report.longreprtext).1,
        (resolutionTable report.passed (item.iter_markers "xfail").head? report.longreprtext).2⟩] := by
  unfold finish_test
  simp only [h, if_true]
  rcases authorize_calls_cases st authOk with ha | ha
  all_goals
    cases hl : item.iter_markers "xfail" with
    | nil =>
        cases hp : report.passed <;>
          simp [finishPayloads, List.filterMap_append, ha,
            resolutionTable, TestStatus.value, hl]
    | cons m ms =>
        cases hp : report.passed
        · simp [finishPayloads, List.filterMap_append, ha,
            resolutionTable, TestStatus.value, hl]
        · cases hs : m.kwargs_strict.getD false <;>
            simp [finishPayloads, List.filterMap_append, ha,
              resolutionTable, TestStatus.value, hl, hs]

/-- C1 counterexample: a passed test with a non-strict xfail marker whose
reason is "flaky" is finished with status skipped and reason "flaky" — not
with an absent reason as the claim's table row states. -/
theorem xfail_nonstrict_pass_sends_marker_reason :
    finishPayloads (finish_test activeState ⟨true, false, ""⟩ xfailItem true).2 =
      [⟨"SKIPPED", some "flaky"⟩] ∧ some "flaky" ≠ (none : Option String) := by
  exact ⟨by decide, by decide⟩

/-- Witness for the amended C1 theorem at a concrete active state. -/
theorem finish_test_resolution_witness :
    activeState.ctx.test_is_active = true ∧
    finishPayloads (finish_test activeState ⟨true, false, ""⟩ xfailItem true).2 =
      [⟨(resolutionTable true (xfailItem.iter_markers "xfail").head? "").1,
        (resolutionTable true (xfailItem.iter_markers "xfail").head? "").2⟩] :=
  ⟨by decide, finish_test_resolution activeState ⟨true, false, ""⟩ xfailItem true (by decide)⟩

/-- A maintainer-marker list whose members all carry a positional
argument is mapped to its argument list without raising. -/
theorem maintainerArgs_ok (ms : List Marker)
    (h : ms.all (fun m => !m.args.isEmpty) = true) :
    ∃ l, maintainerArgs ms = Except.ok l := by
  induction ms with
  | nil => exact ⟨[], rfl⟩
  | cons m ms ih =>
      simp only [List.all_cons, Bool.and_eq_true] at h
      obtain ⟨hm, hms⟩ := h
      obtain ⟨l, hl⟩ := ih hms
      cases hargs : m.args with
      | nil => simp [hargs] at hm
      | cons a rest => exact ⟨a :: l, by simp [maintainerArgs, hargs, hl]⟩

/-- A label-marker list whose members all carry two positional arguments
is mapped to its pair list without raising. -/
theorem labelArgs_ok (ms : List Marker)
    (h : ms.all (fun m => decide (2 ≤ m.args.length)) = true) :
    ∃ l, labelArgs ms = Except.ok l := by
  induction ms with
  | nil => exact ⟨[], rfl⟩
  | cons m ms ih =>
      simp only [List.all_cons, Bool.and_eq_true, decide_eq_true_eq] at h
      obtain ⟨hm, hms⟩ := h
      obtain ⟨l, hl⟩ := ih hms
      cases hargs : m.args with
      | nil => simp [hargs] at hm
      | cons a rest =>
          cases hrest : rest with
          | nil => rw [hargs, hrest] at hm; simp at hm
          | cons b rest2 => exact ⟨(a, b) :: l, by simp [labelArgs, hargs, hrest, hl]⟩

/-- C5: when the report says skipped at start time and the Test comes out
active (active Run, start-test call returned a server id), `start_test`
issues exactly one finish-test call, with status skipped and the first
skip marker's `reason` keyword argument (absent when there is no skip
marker), and clears the current-Test slot; no payload with another status
is sent. -/
theorem start_test_skip_branch (st : ServiceState) (report : TestReport) (item : Item)
    (authOk : Bool) (tid : Nat)
    (hrun : st.ctx.test_run_is_active = true)
    (hskip : report.skipped = true)
    (hwf : itemWellFormed item = true) :
    (start_test st report item authOk (some tid)).error = none ∧
    finishPayloads (start_test st report item authOk (some tid)).calls =
      [⟨TestStatus.SKIPPED.value,
        (item.own_markers.filter (fun m => m.name == "skip")).head?.bind Marker.kwargs_reason⟩] ∧
    (start_test st report item authOk (some tid)).state.ctx.test = none := by
  unfold itemWellFormed at hwf
  simp only [Bool.and_eq_true, decide_eq_true_eq] at hwf
  obtain ⟨⟨hlen, hm⟩, hlb⟩ := hwf
  have h1 : 1 < (splitDoubleColon item.nodeid).length := by omega
  obtain ⟨ms, hms⟩ := maintainerArgs_ok _ hm
  obtain ⟨ls, hls⟩ := labelArgs_ok _ (by simpa using hlb)
  simp only [Context.test_run_is_active] at hrun
  unfold start_test
  rw [List.get?_eq_get h1, hms, hls]
  unfold authorize
  by_cases hA : st.authenticated <;>
    simp [hA, hrun, hskip, Context.test_is_active, Context.test_run_is_active,
      finishPayloads, List.filterMap_append, Context.test_run_id, Context.test_id]

/-- Witness for the C5 theorem: the spec scenario of a skip marker with
reason "env" on an item whose Run is active. -/
theorem start_test_skip_branch_witness :
    activeRunState.ctx.test_run_is_active = true ∧
    itemWellFormed skipItem = true ∧
    ((start_test activeRunState ⟨false, true, ""⟩ skipItem true (some 7)).error = none ∧
     finishPayloads (start_test activeRunState ⟨false, true, ""⟩ skipItem true (some 7)).calls =
       [⟨TestStatus.SKIPPED.value,
         (skipItem.own_markers.filter (fun m => m.name == "skip")).head?.bind Marker.kwargs_reason⟩] ∧
     (start_test activeRunState ⟨false, true, ""⟩ skipItem true (some 7)).state.ctx.test = none) :=
  ⟨by decide, by decide,
   start_test_skip_branch activeRunState ⟨false, true, ""⟩ skipItem true 7
     (by decide) (by decide) (by decide)⟩

/-- C8: `finish_test_run` issues the remote finish-run call — with payload
timestamp the current time minus one second — exactly when the Run is
active, flushes the registered log sink exactly when the Run is active and
a sink is registered, and in every case ends by releasing the client's
connection resources. -/
theorem finish_run_remote_and_close (st : ServiceState) (authOk : Bool) (now : Int) :
    finishRunCalls (finish_test_run st authOk now).2 =
      (if st.ctx.test_run_is_active then [(st.ctx.test_run_id, now - 1)] else []) ∧
    countPushLogs (finish_test_run st authOk now).2 =
      (if st.ctx.test_run_is_active && st.log_handler_registered then 1 else 0) ∧
    (finish_test_run st authOk now).2.getLast? = some ApiCall.close := by
  unfold finish_test_run authorize
  by_cases hA : st.authenticated <;>
    by_cases hR : st.ctx.test_run_is_active = true <;>
      by_cases hL : st.log_handler_registered = true <;>
        simp_all [finishRunCalls, countPushLogs, List.filterMap_append, List.getLast?]

/-- C9: the session operations are no-ops returning an absent result when
the Run is inactive; when it is active they invoke the client's session
operations exactly once — `start_test_session` returning exactly the
client's value and `finish_test_session` carrying the related test ids —
and the client stubs never raise. -/
theorem session_forwarding (st : ServiceState) (authOk : Bool) (session_id : String)
    (caps dcaps : List (String × String)) (zsid : String) (related : List String) :
    sessionInvokes (start_test_session st authOk session_id caps dcaps).2.1 =
      (if st.ctx.test_run_is_active then
        [ApiCall.startSessionInvoke st.ctx.test_run_id ⟨session_id, dcaps, caps, []⟩]
       else []) ∧
    (start_test_session st authOk session_id caps dcaps).2.2 =
      (if st.ctx.test_run_is_active then startTestSessionNet.value else none) ∧
    sessionInvokes (finish_test_session st authOk zsid related).2 =
      (if st.ctx.test_run_is_active then
        [ApiCall.finishSessionInvoke st.ctx.test_run_id zsid ⟨related⟩]
       else []) ∧
    startTestSessionNet.raised = none ∧ finishTestSessionNet.raised = none := by
  unfold start_test_session finish_test_session authorize
  by_cases hA : st.authenticated <;>
    by_cases hR : st.ctx.test_run_is_active = true <;>
      simp_all [sessionInvokes, startTestSessionNet, finishTestSessionNet]

/-- A propagating error of the maintainer-marker extraction is always the
marker-argument IndexError. -/
theorem maintainerArgs_error (ms : List Marker) (e : PyError)
    (h : maintainerArgs ms = Except.error e) : e = PyError.indexErrorMarkerArgs := by
  induction ms generalizing e with
  | nil => simp [maintainerArgs] at h
  | cons m ms ih =>
      unfold maintainerArgs at h
      cases hargs : m.args with
      | nil =>
          rw [hargs] at h
          simp at h
          exact h.symm
      | cons a rest =>
          rw [hargs] at h
          cases hrec : maintainerArgs ms with
          | error e2 =>
              rw [hrec] at h
              simp at h
              exact h ▸ ih e2 hrec
          | ok l =>
              rw [hrec] at h
              simp at h

/-- A propagating error of the label-marker extraction is always the
marker-argument IndexError. -/
theorem labelArgs_error (ms : List Marker) (e : PyError)
    (h : labelArgs ms = Except.error e) : e = PyError.indexErrorMarkerArgs := by
  induction ms generalizing e with
  | nil => simp [labelArgs] at h
  | cons m ms ih =>
      unfold labelArgs at h
      cases hargs : m.args with
      | nil =>
          rw [hargs] at h
          simp at h
          exact h.symm
      | cons a rest =>
          cases hrest : rest with
          | nil =>
              rw [hargs, hrest] at h
              simp at h
              exact h.symm
          | cons b rest2 =>
              rw [hargs, hrest] at h
              cases hrec : labelArgs ms with
              | error e2 =>
                  rw [hrec] at h
                  simp at h
                  exact h ▸ ih e2 hrec
              | ok l =>
                  rw [hrec] at h
                  simp at h

/-- C10 (amended): when the node id has no `::` separator, `start_test`
raises an IndexError at the source-file extraction, before any Context
mutation and before any test-lifecycle remote call (the idempotent
authentication call may already have been issued); when the node id has a
second `::`-segment, that extraction's error is unreachable. -/
theorem start_test_nodeid_precondition (st : ServiceState) (report : TestReport)
    (item : Item) (authOk : Bool) (testId : Option Nat) :
    ((splitDoubleColon item.nodeid).length < 2 →
       (start_test st report item authOk testId).error = some PyError.indexErrorNodeid ∧
       (start_test st report item authOk testId).state.ctx = st.ctx ∧
       (start_test st report item authOk testId).calls.filter isTestLifecycle = []) ∧
    (2 ≤ (splitDoubleColon item.nodeid).length →
       (start_test st report item authOk testId).error ≠ some PyError.indexErrorNodeid) := by
  constructor
  · intro hlen
    have hget : (splitDoubleColon item.nodeid).get? 1 = none :=
      List.get?_eq_none.mpr (by omega)
    unfold start_test
    rw [hget]
    exact ⟨rfl, authorize_ctx st authOk, authorize_no_lifecycle st authOk⟩
  · intro hlen
    have h1 : 1 < (splitDoubleColon item.nodeid).length := by omega
    unfold start_test
    rw [List.get?_eq_get h1]
    cases hm : maintainerArgs (item.iter_markers "maintainer") with
    | error e =>
        have he := maintainerArgs_error _ _ hm
        subst he
        simp
    | ok ms =>
        cases hl2 : labelArgs (item.iter_markers "label") with
        | error e =>
            have he := labelArgs_error _ _ hl2
            subst he
            simp
        | ok ls =>
            simp only []
            split <;> split <;> simp

/-- C10 counterexample: on a node id with no `::`, with an unauthenticated
client, the remote authentication call is issued before the extraction
raises — the failure does not precede every remote call. -/
theorem auth_call_precedes_nodeid_error :
    (start_test initialState ⟨false, false, ""⟩ ⟨"test_a", "test_a", [], []⟩ true none).error =
      some PyError.indexErrorNodeid ∧
    (start_test initialState ⟨false, false, ""⟩ ⟨"test_a", "test_a", [], []⟩ true none).calls =
      [ApiCall.auth] :=
  ⟨by decide, by decide⟩

/-- Witness for the amended C10 theorem at a malformed and at a well-formed
node id. -/
theorem start_test_nodeid_precondition_witness :
    ((start_test initialState ⟨false, false, ""⟩ ⟨"test_a", "test_a", [], []⟩ true none).error =
        some PyError.indexErrorNodeid ∧
     (start_test initialState ⟨false, false, ""⟩ ⟨"test_a", "test_a", [], []⟩ true none).state.ctx =
        initialState.ctx ∧
     (start_test initialState ⟨false, false, ""⟩ ⟨"test_a", "test_a", [], []⟩ true
        none).calls.filter isTestLifecycle = []) ∧
    (start_test initialState ⟨false, false, ""⟩ plainItem true none).error ≠
      some PyError.indexErrorNodeid :=
  ⟨(start_test_nodeid_precondition initialState ⟨false, false, ""⟩ ⟨"test_a", "test_a", [], []⟩
      true none).1 (by decide),
   (start_test_nodeid_precondition initialState ⟨false, false, ""⟩ plainItem true none).2
      (by decide)⟩

/-- Run activity depends only on the Context's Run slot. -/
theorem run_active_eq_of_test_run (c1 c2 : Context) (h : c1.test_run = c2.test_run) :
    c1.test_run_is_active = c2.test_run_is_active := by
  unfold Context.test_run_is_active
  rw [h]

/-- The Test is inactive whenever the Run is. -/
theorem test_inactive_of_run_inactive (c : Context) (h : c.test_run_is_active = false) :
    c.test_is_active = false := by
  unfold Context.test_is_active
  rw [h]
  exact Bool.false_and _

/-- `finish_test` is a no-op on an inactive Test. -/
theorem finish_test_inactive (st : ServiceState) (r : TestReport) (i : Item) (a : Bool)
    (h : st.ctx.test_is_active = false) :
    finish_test st r i a = (st, []) := by
  unfold finish_test
  simp [h]

/-- On an active Test, `finish_test` clears the current-Test slot and
leaves the Run slot untouched. -/
theorem finish_test_active_clears (st : ServiceState) (r : TestReport) (i : Item) (a : Bool)
    (h : st.ctx.test_is_active = true) :
    (finish_test st r i a).1.ctx.test = none ∧
    (finish_test st r i a).1.ctx.test_run = st.ctx.test_run := by
  unfold finish_test
  simp [h, authorize_ctx]

/-- On an active Run, with a well-formed item and a successful remote
start-test call, `start_test` completes without raising, preserves the Run
slot, and any Test it leaves in the slot carries the returned server id. -/
theorem start_test_active_shape (st : ServiceState) (r : TestReport) (item : Item)
    (a : Bool) (tid : Nat)
    (hrun : st.ctx.test_run_is_active = true) (hwf : itemWellFormed item = true) :
    (start_test st r item a (some tid)).error = none ∧
    (start_test st r item a (some tid)).state.ctx.test_run = st.ctx.test_run ∧
    ∀ t, (start_test st r item a (some tid)).state.ctx.test = some t →
      t.zebrunner_id = some tid := by
  unfold itemWellFormed at hwf
  simp only [Bool.and_eq_true, decide_eq_true_eq] at hwf
  obtain ⟨⟨hlen, hm⟩, hlb⟩ := hwf
  have h1 : 1 < (splitDoubleColon item.nodeid).length := by omega
  obtain ⟨ms, hms⟩ := maintainerArgs_ok _ hm
  obtain ⟨ls, hls⟩ := labelArgs_ok _ (by simpa using hlb)
  simp only [Context.test_run_is_active] at hrun
  unfold start_test
  rw [List.get?_eq_get h1, hms, hls]
  unfold authorize
  by_cases hA : st.authenticated <;> cases hsk : r.skipped <;>
    simp [hA, hrun, hsk, Context.test_is_active, Context.test_run_is_active]

/-- One start/finish round on an active Run whose start-test call returned
a server id ends with the current-Test slot cleared and the Run slot
untouched. -/
theorem stepPair_clears (st : ServiceState) (p : StepPair)
    (hrun : st.ctx.test_run_is_active = true)
    (hwf : itemWellFormed p.item = true)
    (htid : p.testId.isSome = true) :
    ∃ st2, stepPair st p = some st2 ∧ st2.ctx.test = none ∧
      st2.ctx.test_run = st.ctx.test_run := by
  obtain ⟨tid, htid2⟩ := Option.isSome_iff_exists.mp htid
  unfold stepPair
  rw [htid2]
  obtain ⟨he, hpres, hid⟩ := start_test_active_shape st p.reportS p.item p.authOkS tid hrun hwf
  simp only [he]
  refine ⟨(finish_test (start_test st p.reportS p.item p.authOkS (some tid)).state
      p.reportF p.item p.authOkF).1, rfl, ?_⟩
  cases hS : (start_test st p.reportS p.item p.authOkS (some tid)).state.ctx.test with
  | none =>
      have hin : (start_test st p.reportS p.item p.authOkS (some tid)).state.ctx.test_is_active = false := by
        unfold Context.test_is_active
        rw [hS]
        simp
      rw [finish_test_inactive _ _ _ _ hin]
      exact ⟨hS, hpres⟩
  | some t =>
      have hact : (start_test st p.reportS p.item p.authOkS (some tid)).state.ctx.test_is_active = true := by
        unfold Context.test_is_active
        rw [hS, run_active_eq_of_test_run _ st.ctx hpres, hrun]
        simp [hid t hS]
      obtain ⟨h1, h2⟩ := finish_test_active_clears _ p.reportF p.item p.authOkF hact
      exact ⟨h1, h2.trans hpres⟩

/-- Over any list of rounds on an active Run, all of whose start-test
calls return server ids, every post-finish state has an empty current-Test
slot. -/
theorem runPairs_clears (pairs : List StepPair) :
    ∀ st : ServiceState, st.ctx.test_run_is_active = true →
    (∀ p ∈ pairs, itemWellFormed p.item = true) →
    (∀ p ∈ pairs, p.testId.isSome = true) →
    ∃ states, runPairs st pairs = some states ∧ ∀ s ∈ states, s.ctx.test = none := by
  induction pairs with
  | nil =>
      intro st _ _ _
      exact ⟨[], rfl, by simp⟩
  | cons p ps ih =>
      intro st hrun hwf hid
      obtain ⟨st2, hstep, htest, hpres⟩ :=
        stepPair_clears st p hrun (hwf p (List.mem_cons_self p ps)) (hid p (List.mem_cons_self p ps))
      have hrun2 : st2.ctx.test_run_is_active = true := by
        rw [run_active_eq_of_test_run st2.ctx st.ctx hpres]
        exact hrun
      obtain ⟨states, hrs, hall⟩ :=
        ih st2 hrun2 (fun q hq => hwf q (List.mem_cons_of_mem p hq))
          (fun q hq => hid q (List.mem_cons_of_mem p hq))
      refine ⟨st2 :: states, ?_, ?_⟩
      · unfold runPairs
        rw [hstep]
        simp [hrs]
      · intro s hs
        rcases List.mem_cons.mp hs with h | h
        · rw [h]
          exact htest
        · exact hall s h

/-- C2 (amended): in a run of shape (start_run, (start_test, finish_test)
repeated) in which the remote start-run call succeeded and every remote
start-test call returned a server id, the current-Test slot is absent
before the first start_test and immediately after every finish_test call —
in particular even when any remote finish-test or auth call failed, whose
outcomes this statement quantifies over. -/
theorem current_test_absent_through_run (settings : Settings) (ci : Option CiContextModel)
    (authOk : Bool) (rid : Nat) (pairs : List StepPair)
    (hwf : ∀ p ∈ pairs, itemWellFormed p.item = true)
    (hid : ∀ p ∈ pairs, p.testId.isSome = true) :
    (start_test_run initialState settings ci authOk (some rid)).1.ctx.test = none ∧
    ∃ states,
      runPairs (start_test_run initialState settings ci authOk (some rid)).1 pairs = some states ∧
      ∀ s ∈ states, s.ctx.test = none := by
  refine ⟨rfl, ?_⟩
  exact runPairs_clears pairs _ rfl hwf hid

/-- C2 counterexample: when the remote start-test call fails (the Test
stays inactive), the following finish_test is a no-op and the current-Test
slot still holds the Test afterwards. -/
theorem test_slot_retained_on_start_test_failure :
    ((finish_test
        (start_test (start_test_run initialState sampleSettings none true (some 1)).1
          ⟨false, false, ""⟩ plainItem true none).state
        ⟨false, false, "boom"⟩ plainItem true).1).ctx.test ≠ none :=
  by decide

/-- Witness for the amended C2 theorem: one round with a successful
start-test call. -/
theorem current_test_absent_through_run_witness :
    (start_test_run initialState sampleSettings none true (some 1)).1.ctx.test = none ∧
    ∃ states,
      runPairs (start_test_run initialState sampleSettings none true (some 1)).1
        [⟨⟨true, false, ""⟩, ⟨true, false, ""⟩, plainItem, true, true, some 7⟩] = some states ∧
      ∀ s ∈ states, s.ctx.test = none :=
  current_test_absent_through_run sampleSettings none true 1
    [⟨⟨true, false, ""⟩, ⟨true, false, ""⟩, plainItem, true, true, some 7⟩]
    (by decide) (by decide)

/-- On an inactive Run, `start_test` — whether it raises or completes —
preserves the Run slot and issues no test-lifecycle transport call. -/
theorem start_test_inactive_shape (st : ServiceState) (r : TestReport) (item : Item)
    (a : Bool) (t : Option Nat)
    (hrun : st.ctx.test_run_is_active = false) :
    (start_test st r item a t).state.ctx.test_run = st.ctx.test_run ∧
    (start_test st r item a t).calls.filter isTestLifecycle = [] := by
  simp only [Context.test_run_is_active] at hrun
  unfold start_test
  unfold authorize
  by_cases hA : st.authenticated <;>
    cases hg : (splitDoubleColon item.nodeid).get? 1 <;>
      cases hm : maintainerArgs (item.iter_markers "maintainer") <;>
        cases hl2 : labelArgs (item.iter_markers "label") <;>
          simp [hA, hg, hm, hl2, hrun, isTestLifecycle,
            Context.test_is_active, Context.test_run_is_active]

/-- Starting from a state whose Run is inactive, no sequence of test
events ever issues a test-lifecycle transport call. -/
theorem runEvents_no_lifecycle (evs : List TestEvent) :
    ∀ st : ServiceState, st.ctx.test_run_is_active = false →
    (runEvents st evs).2.filter isTestLifecycle = [] := by
  induction evs with
  | nil =>
      intro st h
      rfl
  | cons ev evs ih =>
      intro st h
      cases ev with
      | start r i a t =>
          obtain ⟨hpres, hcalls⟩ := start_test_inactive_shape st r i a t h
          unfold runEvents
          cases he : (start_test st r i a t).error with
          | some e =>
              simp only [he]
              exact hcalls
          | none =>
              have h2 : (start_test st r i a t).state.ctx.test_run_is_active = false := by
                rw [run_active_eq_of_test_run _ st.ctx hpres]
                exact h
              simp only [he]
              rw [List.filter_append, hcalls, ih _ h2]
              rfl
      | finish r i a =>
          have hninact : st.ctx.test_is_active = false := test_inactive_of_run_inactive _ h
          unfold runEvents
          simp only [finish_test_inactive st r i a hninact]
          simpa using ih st h

/-- C3: when the remote start-run call fails (no server id: the Run stays
inactive), the whole trace — the start-run step and every subsequent
sequence of start_test/finish_test events — contains no remote start-test
and no remote finish-test call. -/
theorem run_start_failure_no_lifecycle (settings : Settings) (ci : Option CiContextModel)
    (authOk : Bool) (evs : List TestEvent) :
    ((start_test_run initialState settings ci authOk none).2 ++
      (runEvents (start_test_run initialState settings ci authOk none).1 evs).2).filter
      isTestLifecycle = [] := by
  have hrun :
      (start_test_run initialState settings ci authOk none).1.ctx.test_run_is_active = false := rfl
  have h1 :
      (start_test_run initialState settings ci authOk none).2.filter isTestLifecycle = [] := rfl
  rw [List.filter_append, h1, runEvents_no_lifecycle evs _ hrun]
  rfl

end Zebrunner
